import Mathlib

/-!
Verification of the GSC single-node ledger and wallet engine
(src/services/gscBlockchain.ts and the mnemonic import handler of
src/components/wallet/GSCWalletManager.tsx).

The embedding follows the TypeScript source: JavaScript strings are Lean
strings handled through their character lists, JavaScript numbers are exact
rationals, JavaScript objects used as maps are association lists with
insertion-order semantics, thrown exceptions are Except results, and the
nondeterministic clock is an explicit parameter.  The SHA-256 digest used by
the engine is implemented executably below so that concrete runs of the
engine evaluate inside the kernel.
-/

set_option maxRecDepth 8000

unseal Rat.add Rat.mul Rat.inv Rat.sub

namespace GSC

/-! ## JavaScript string helpers (character-list semantics) -/

/-- JS String.prototype.length for the basic-plane ASCII strings this engine
manipulates (one UTF-16 code unit per character). -/
def jsLen (s : String) : Nat := s.data.length

/-- JS String.prototype.startsWith. -/
def strStartsWith (s p : String) : Bool := s.data.take p.data.length == p.data

/-- ASCII whitespace, the separators relevant to the mnemonic split. -/
def isWsChar (c : Char) : Bool := c == ' ' || c == '\t' || c == '\n' || c == '\r'

/-- JS String.prototype.trim restricted to ASCII whitespace. -/
def jsTrim (s : String) : String :=
  String.mk (((s.data.dropWhile isWsChar).reverse.dropWhile isWsChar).reverse)

/-- Split on runs of whitespace, the behaviour of the regular-expression
split used by the mnemonic import handler on trimmed nonempty input. -/
def splitWsAux : List Char → List Char → List String
  | [], acc => if acc.isEmpty then [] else [String.mk acc.reverse]
  | c :: cs, acc =>
    if isWsChar c then
      if acc.isEmpty then splitWsAux cs []
      else String.mk acc.reverse :: splitWsAux cs []
    else splitWsAux cs (c :: acc)

def splitWs (s : String) : List String := splitWsAux s.data []

/-! ## Hex and UTF-8 encoding -/

/-- Lower-case hexadecimal digit, as produced by toString(16). -/
def hexDig (n : Nat) : Char :=
  if n < 10 then Char.ofNat (48 + n) else Char.ofNat (87 + n)

/-- Bytes to lower-case hex characters, two per byte, the padStart(2)/join
rendering the source uses everywhere. -/
def bytesToHexChars : List Nat → List Char
  | [] => []
  | b :: bs => hexDig (b / 16 % 16) :: hexDig (b % 16) :: bytesToHexChars bs

def bytesToHex (bs : List Nat) : String := String.mk (bytesToHexChars bs)

/-- UTF-8 bytes of one character, as TextEncoder emits them. -/
def utf8Char (c : Char) : List Nat :=
  let n := c.toNat
  if n < 128 then [n]
  else if n < 2048 then [192 + n / 64, 128 + n % 64]
  else if n < 65536 then [224 + n / 4096, 128 + n / 64 % 64, 128 + n % 64]
  else [240 + n / 262144, 128 + n / 4096 % 64, 128 + n / 64 % 64, 128 + n % 64]

/-- TextEncoder.encode: UTF-8 bytes of a string. -/
def strBytes (s : String) : List Nat := (s.data.map utf8Char).flatten

/-! ## SHA-256 (executable, over byte lists; words are Nat taken mod 2^32) -/

def M32 : Nat := 4294967296

def rotr32 (n x : Nat) : Nat := (x >>> n) ||| ((x <<< (32 - n)) % M32)

def bigSigma0 (x : Nat) : Nat := rotr32 2 x ^^^ rotr32 13 x ^^^ rotr32 22 x
def bigSigma1 (x : Nat) : Nat := rotr32 6 x ^^^ rotr32 11 x ^^^ rotr32 25 x
def smallSigma0 (x : Nat) : Nat := rotr32 7 x ^^^ rotr32 18 x ^^^ (x >>> 3)
def smallSigma1 (x : Nat) : Nat := rotr32 17 x ^^^ rotr32 19 x ^^^ (x >>> 10)
def chFn (x y z : Nat) : Nat := (x &&& y) ^^^ ((x ^^^ 4294967295) &&& z)
def majFn (x y z : Nat) : Nat := (x &&& y) ^^^ (x &&& z) ^^^ (y &&& z)

/-- The 64 SHA-256 round constants of FIPS 180-4 (fractional parts of the
cube roots of the first 64 primes), written in decimal. -/
def K64 : List Nat :=
  [1116352408, 1899447441, 3049323471, 3921009573, 961987163, 1508970993,
   2453635748, 2870763221, 3624381080, 310598401, 607225278, 1426881987,
   1925078388, 2162078206, 2614888103, 3248222580, 3835390401, 4022224774,
   264347078, 604807628, 770255983, 1249150122, 1555081692, 1996064986,
   2554220882, 2821834349, 2952996808, 3210313671, 3336571891, 3584528711,
   113926993, 338241895, 666307205, 773529912, 1294757372, 1396182291,
   1695183700, 1986661051, 2177026350, 2456956037, 2730485921, 2820302411,
   3259730800, 3345764771, 3516065817, 3600352804, 4094571909, 275423344,
   430227734, 506948616, 659060556, 883997877, 958139571, 1322822218,
   1537002063, 1747873779, 1955562222, 2024104815, 2227730452, 2361852424,
   2428436474, 2756734187, 3204031479, 3329325298]

/-- Padded message: 0x80, zeros to 56 mod 64, then the bit length big-endian. -/
def padMessage (msg : List Nat) : List Nat :=
  let l := msg.length
  let bitLen := 8 * l
  msg ++ [128] ++ List.replicate ((119 - l % 64) % 64) 0 ++
    [bitLen >>> 56 &&& 255, bitLen >>> 48 &&& 255, bitLen >>> 40 &&& 255, bitLen >>> 32 &&& 255,
     bitLen >>> 24 &&& 255, bitLen >>> 16 &&& 255, bitLen >>> 8 &&& 255, bitLen &&& 255]

def chunksAux : Nat → List Nat → List (List Nat)
  | 0, _ => []
  | _ + 1, [] => []
  | fuel + 1, c :: cs => (c :: cs).take 64 :: chunksAux fuel ((c :: cs).drop 64)

def chunks64 (l : List Nat) : List (List Nat) := chunksAux l.length l

/-- Big-endian 32-bit words from bytes. -/
def bytesToWords : List Nat → List Nat
  | a :: b :: c :: d :: rest => ((a <<< 24) ||| (b <<< 16) ||| (c <<< 8) ||| d) :: bytesToWords rest
  | _ => []

/-- Append one schedule word. -/
def extendSchedule (w : List Nat) : List Nat :=
  let n := w.length
  w ++ [(smallSigma1 (w.getD (n - 2) 0) + w.getD (n - 7) 0 +
         smallSigma0 (w.getD (n - 15) 0) + w.getD (n - 16) 0) % M32]

def schedule (w16 : List Nat) : List Nat := Nat.repeat extendSchedule 48 w16

structure Sha8 where
  a : Nat
  b : Nat
  c : Nat
  d : Nat
  e : Nat
  f : Nat
  g : Nat
  h : Nat
deriving DecidableEq

/-- The initial SHA-256 state of FIPS 180-4, in decimal. -/
def shaInit : Sha8 :=
  { a := 1779033703, b := 3144134277, c := 1013904242, d := 2773480762,
    e := 1359893119, f := 2600822924, g := 528734635, h := 1541459225 }

def roundStep (st : Sha8) (kw : Nat × Nat) : Sha8 :=
  let t1 := (st.h + bigSigma1 st.e + chFn st.e st.f st.g + kw.1 + kw.2) % M32
  let t2 := (bigSigma0 st.a + majFn st.a st.b st.c) % M32
  { a := (t1 + t2) % M32, b := st.a, c := st.b, d := st.c,
    e := (st.d + t1) % M32, f := st.e, g := st.f, h := st.g }

def compressBlock (st : Sha8) (block : List Nat) : Sha8 :=
  let w := schedule (bytesToWords block)
  let r := (K64.zip w).foldl roundStep st
  { a := (st.a + r.a) % M32, b := (st.b + r.b) % M32, c := (st.c + r.c) % M32,
    d := (st.d + r.d) % M32, e := (st.e + r.e) % M32, f := (st.f + r.f) % M32,
    g := (st.g + r.g) % M32, h := (st.h + r.h) % M32 }

def wordBytes (w : Nat) : List Nat :=
  [w >>> 24 &&& 255, w >>> 16 &&& 255, w >>> 8 &&& 255, w &&& 255]

def digestOf (st : Sha8) : List Nat :=
  wordBytes st.a ++ wordBytes st.b ++ wordBytes st.c ++ wordBytes st.d ++
  wordBytes st.e ++ wordBytes st.f ++ wordBytes st.g ++ wordBytes st.h

/-- SHA-256 digest (32 bytes) of a byte list. -/
def sha256Bytes (msg : List Nat) : List Nat :=
  digestOf ((chunks64 (padMessage msg)).foldl compressBlock shaInit)

/-! ## JavaScript number rendering

The engine concatenates numbers into the string it hashes.  JavaScript prints
its numbers in shortest round-trip decimal form; for the decimal-valued
rationals the engine actually handles (amounts, fees, second timestamps) that
form is the exact decimal expansion with no trailing zeros, which is what
jsNumToString produces.  Rationals with no finite decimal expansion cannot
arise from decimal user input; they get a fraction rendering that only keeps
the function total. -/

def padZeros (k : Nat) (s : String) : String :=
  String.mk (List.replicate (k - s.data.length) '0') ++ s

def jsNumToString (q : ℚ) : String :=
  let sign := if q.num < 0 then "-" else ""
  if q.den = 1 then sign ++ toString q.num.natAbs
  else
    match (List.range 21).find? (fun k => 10 ^ k % q.den == 0) with
    | some k =>
      let m := q.num.natAbs * 10 ^ k / q.den
      sign ++ toString (m / 10 ^ k) ++ "." ++ padZeros k (toString (m % 10 ^ k))
    | none => sign ++ toString q.num.natAbs ++ "/" ++ toString q.den

/-- Number.prototype.toFixed(8), used only inside the insufficient-balance
message; rounding to eight decimals, half away from zero. -/
def jsToFixed8 (q : ℚ) : String :=
  let aq : ℚ := if q < 0 then -q else q
  let m := (aq * 100000000 + 1 / 2).floor.toNat
  (if q < 0 then "-" else "") ++ toString (m / 100000000) ++ "." ++
    padZeros 8 (toString (m % 100000000))

/-- JS parseInt(s, 16).  It never throws: it returns NaN (here none) when no
leading hexadecimal digits are found.  The caller in validateGSCAddress
discards the value, so sign and 0x-prefix handling are irrelevant and
omitted. -/
def hexVal (c : Char) : Option Nat :=
  if '0' ≤ c ∧ c ≤ '9' then some (c.toNat - 48)
  else if 'a' ≤ c ∧ c ≤ 'f' then some (c.toNat - 87)
  else if 'A' ≤ c ∧ c ≤ 'F' then some (c.toNat - 55)
  else none

def jsParseIntHex (s : String) : Option Nat :=
  let digits := s.data.takeWhile (fun c => (hexVal c).isSome)
  if digits.isEmpty then none
  else some (digits.foldl (fun acc c => 16 * acc + (hexVal c).getD 0) 0)

/-! ## Data model (interfaces GSCTransaction, GSCBlock, GSCWallet,
GSCBlockchain of gscBlockchain.ts) -/

structure GSCTransaction where
  sender : String
  receiver : String
  amount : ℚ
  fee : ℚ
  timestamp : ℚ
  signature : String
  tx_id : String
deriving DecidableEq

structure GSCBlock where
  index : Nat
  timestamp : ℚ
  transactions : List GSCTransaction
  previous_hash : String
  nonce : Nat
  hash : String
  merkle_root : String
  difficulty : Nat
  miner : String
  reward : ℚ
deriving DecidableEq

structure GSCWallet where
  name : String
  address : String
  private_key : String
  public_key : String
  balance : ℚ
  created : String
  encrypted : Bool
deriving DecidableEq

/-- The in-memory blockchain.  The optional TS fields are total here because
every constructor of the state (genesis, import, normalization) assigns them;
mempool stays optional since only the import paths write it. -/
structure GSCBlockchain where
  chain : List GSCBlock
  pending_transactions : List GSCTransaction
  wallets : List GSCWallet
  total_supply : ℚ
  mempool : Option (List GSCTransaction)
  balances : List (String × ℚ)
  difficulty : Nat
  mining_reward : ℚ
deriving DecidableEq

/-- A parsed snapshot as read from localStorage: every field may be absent. -/
structure GSCSnapshot where
  chain : Option (List GSCBlock)
  pending_transactions : Option (List GSCTransaction)
  mempool : Option (List GSCTransaction)
  wallets : Option (List GSCWallet)
  total_supply : Option ℚ
  balances : Option (List (String × ℚ))
  difficulty : Option Nat
  mining_reward : Option ℚ
deriving DecidableEq

/-- JS a || default on a number field: undefined and 0 are both falsy. -/
def jsOrQ (o : Option ℚ) (d : ℚ) : ℚ :=
  match o with
  | some v => if v = 0 then d else v
  | none => d

def jsOrN (o : Option Nat) (d : Nat) : Nat :=
  match o with
  | some v => if v = 0 then d else v
  | none => d

/-! ## Balances as a JS object: insertion-ordered association list with
unique keys; assignment replaces the existing entry or appends. -/

def getBal : List (String × ℚ) → String → Option ℚ
  | [], _ => none
  | p :: ps, a => if p.1 = a then some p.2 else getBal ps a

def setBal : List (String × ℚ) → String → ℚ → List (String × ℚ)
  | [], a, v => [(a, v)]
  | p :: ps, a, v => if p.1 = a then (a, v) :: ps else p :: setBal ps a v

/-- Mutate the first matching element, the effect of find-then-assign on an
array of object references. -/
def updateFirst (p : α → Bool) (f : α → α) : List α → List α
  | [] => []
  | x :: xs => if p x then f x :: xs else x :: updateFirst p f xs

/-! ## Engine operations -/

/-- getWalletBalance: the balances object first, then the wallet entry. -/
def getWalletBalance (bc : GSCBlockchain) (address : String) : ℚ :=
  match getBal bc.balances address with
  | some v => v
  | none =>
    match bc.wallets.find? (fun w => w.address == address) with
    | some w => w.balance
    | none => 0

/-- updateWalletBalance: clamps to zero, writes the balances object and the
first matching wallet entry. -/
def updateWalletBalance (bc : GSCBlockchain) (address : String) (newBalance : ℚ) :
    GSCBlockchain :=
  { bc with
    balances := setBal bc.balances address (max 0 newBalance),
    wallets := updateFirst (fun w => w.address == address)
      (fun w => { w with balance := max 0 newBalance }) bc.wallets }

/-- validateGSCAddress.  The literals COINBASE, GENESIS and Genesis pass; a
GSC1-prefixed string of length 35 to 36 passes.  parseInt never throws in
JavaScript, so the try/catch around it always takes the success path and the
hexadecimal content of the tail is not actually checked. -/
def validateGSCAddress (address : String) : Bool :=
  if address = "" then false
  else if address = "COINBASE" ∨ address = "GENESIS" ∨ address = "Genesis" then true
  else if strStartsWith address "GSC1" = false then false
  else if jsLen address < 35 ∨ 36 < jsLen address then false
  else
    let hexPart := String.mk (address.data.drop 4)
    let _ := jsParseIntHex hexPart
    true

/-- generateGSCHash: the length argument is accepted and ignored; the source
always returns the full 64-character SHA-256 hex digest. -/
def generateGSCHash (input : String) (_hexLen : Nat) : String :=
  bytesToHex (sha256Bytes (strBytes input))

def calculateGSCTransactionHash (tx : GSCTransaction) : String :=
  generateGSCHash (tx.sender ++ tx.receiver ++ jsNumToString tx.amount ++
    jsNumToString tx.fee ++ jsNumToString tx.timestamp) 64

def signGSCTransaction (tx : GSCTransaction) : String :=
  if tx.tx_id = "" then ""
  else generateGSCHash (tx.tx_id ++ tx.sender ++ jsNumToString tx.timestamp) 16

/-- The transaction record createTransaction builds once past the fee check:
fields, then tx_id from the field string, then the signature. -/
def builtTransaction (sender receiver : String) (amount fee now : ℚ) : GSCTransaction :=
  let tx0 : GSCTransaction :=
    { sender := sender, receiver := receiver, amount := amount, fee := fee,
      timestamp := now, signature := "", tx_id := "" }
  let tx1 := { tx0 with tx_id := calculateGSCTransactionHash tx0 }
  { tx1 with signature := signGSCTransaction tx1 }

/-- createTransaction.  The JS default fee || 0.1 turns a zero fee into the
minimum before the check runs; now stands for Date.now() / 1000. -/
def createTransaction (sender receiver : String) (amount fee : ℚ) (now : ℚ) :
    Except String GSCTransaction :=
  let gscFee := if fee = 0 then (1 : ℚ) / 10 else fee
  if sender ≠ "COINBASE" ∧ sender ≠ "GENESIS" ∧ gscFee < 1 / 10 then
    Except.error "Minimum transaction fee is 0.1 GSC"
  else Except.ok (builtTransaction sender receiver amount gscFee now)

def validateGSCTransaction (transaction : GSCTransaction) (_senderAddress : String) : Bool :=
  if transaction.amount ≤ 0 then false
  else if transaction.fee < 0 then false
  else if transaction.sender = transaction.receiver then false
  else if validateGSCAddress transaction.sender = false then false
  else if validateGSCAddress transaction.receiver = false then false
  else if transaction.tx_id = "" ∨ jsLen transaction.tx_id ≠ 64 then false
  else true

def insufficientMsg (needq haveq : ℚ) : String :=
  "Insufficient balance. Need " ++ jsToFixed8 needq ++ " GSC, have " ++
    jsToFixed8 haveq ++ " GSC"

/-- The body of sendTransaction inside its try block.  Mutations performed
before a throw survive it, so an error carries the state at throw time.  The
balance reconciliation against the wallet object (the first-use bootstrap)
writes the balances object before any check runs. -/
def sendTransactionCore (bc : GSCBlockchain) (senderWallet : GSCWallet)
    (receiver : String) (amount : ℚ) (now : ℚ) :
    Except (String × GSCBlockchain) GSCBlockchain :=
  let balance0 := getWalletBalance bc senderWallet.address
  let fee : ℚ := 1 / 10
  let balance := if balance0 = 0 ∧ 0 < senderWallet.balance then senderWallet.balance
    else balance0
  let bc1 := if balance0 = 0 ∧ 0 < senderWallet.balance then
      { bc with balances := setBal bc.balances senderWallet.address senderWallet.balance }
    else bc
  if strStartsWith receiver "GSC1" = false then
    Except.error ("Invalid GSC address format", bc1)
  else if amount ≤ 0 then
    Except.error ("Amount must be greater than 0", bc1)
  else if balance < amount + fee then
    Except.error (insufficientMsg (amount + fee) balance, bc1)
  else
    match createTransaction senderWallet.address receiver amount fee now with
    | Except.error e => Except.error (e, bc1)
    | Except.ok transaction =>
      if validateGSCTransaction transaction senderWallet.address = false then
        Except.error ("Transaction validation failed", bc1)
      else
        let bc2 := { bc1 with pending_transactions := bc1.pending_transactions ++ [transaction] }
        let bc3 := updateWalletBalance bc2 senderWallet.address (balance - amount - fee)
        let receiverBalance := getWalletBalance bc3 receiver
        Except.ok (updateWalletBalance bc3 receiver (receiverBalance + amount))

/-- sendTransaction: the catch-all wrapper reports every failure as false and
success as true; the state mutated so far is kept either way.  Persistence,
broadcast and toast calls have no effect on the ledger state. -/
def sendTransaction (bc : GSCBlockchain) (senderWallet : GSCWallet)
    (receiver : String) (amount : ℚ) (now : ℚ) : Bool × GSCBlockchain :=
  match sendTransactionCore bc senderWallet receiver amount now with
  | Except.ok bc2 => (true, bc2)
  | Except.error (_, bc2) => (false, bc2)

/-- The reconciled balance sendTransaction checks against: the ledger entry
unless it is zero and the wallet object carries a positive cached balance. -/
def effectiveBalance (bc : GSCBlockchain) (w : GSCWallet) : ℚ :=
  if getWalletBalance bc w.address = 0 ∧ 0 < w.balance then w.balance
  else getWalletBalance bc w.address

/-- The state right after the first-use bootstrap write of sendTransaction:
unchanged unless the ledger read was zero and the wallet object carried a
positive cached balance, in which case that balance has been written into the
balances object before any check ran. -/
def bootState (bc : GSCBlockchain) (w : GSCWallet) : GSCBlockchain :=
  if getWalletBalance bc w.address = 0 ∧ 0 < w.balance then
    { bc with balances := setBal bc.balances w.address w.balance }
  else bc

/-- Address derivation shared by createWallet, importWallet and the mnemonic
path: the GSC1 prefix followed by the first 32 characters of the key. -/
def walletAddressFromPrivateKey (privateKey : String) : String :=
  "GSC1" ++ String.mk (privateKey.data.take 32)

structure MnemonicKey where
  address : String
  privateKey : String
  publicKey : String
deriving DecidableEq

/-- generatePublicKeyFromPrivate: SHA-256 hex of the key string. -/
def generatePublicKeyFromPrivate (privateKey : String) : String :=
  bytesToHex (sha256Bytes (strBytes privateKey))

/-- generateAddressFromMnemonic: joins the words with single spaces, hashes
the UTF-8 bytes to get the private key hex, then derives the public key and
address.  There is no word-count check here. -/
def generateAddressFromMnemonic (mnemonic : List String) : MnemonicKey :=
  let seed := String.intercalate " " mnemonic
  let privateKey := bytesToHex (sha256Bytes (strBytes seed))
  let publicKey := generatePublicKeyFromPrivate privateKey
  let address := walletAddressFromPrivateKey privateKey
  { address := address, privateKey := privateKey, publicKey := publicKey }

/-- The mnemonic import flow of GSCWalletManager (lines 192 to 198): split
the pasted phrase on whitespace, reject unless exactly 12 words, then derive
the key material.  The UI name checks around it do not touch the engine. -/
def handleImportFromMnemonic (mnemonicImport : String) : Except String MnemonicKey :=
  let mnemonicWords := splitWs (jsTrim mnemonicImport)
  if mnemonicWords.length ≠ 12 then Except.error "Mnemonic must be exactly 12 words"
  else Except.ok (generateAddressFromMnemonic mnemonicWords)

/-- The observer wallet both import paths synthesize from a balances entry:
Wallet_ and ten address characters, no key material, clamped balance. -/
def observerWallet (nowISO : String) (p : String × ℚ) : GSCWallet :=
  { name := "Wallet_" ++ String.mk ((p.1.data.drop 4).take 10), address := p.1,
    private_key := "", public_key := "", balance := max 0 p.2, created := nowISO,
    encrypted := false }

/-- One step of the refresh loop that pushes observer wallets for snapshot
addresses not yet present (the push happens inside the iteration, so entries
added earlier in the same loop also block duplicates). -/
def addObserver (nowISO : String) (ws : List GSCWallet) (p : String × ℚ) : List GSCWallet :=
  if p.1 ≠ "GENESIS" ∧ p.1 ≠ "COINBASE" ∧ strStartsWith p.1 "GSC1" = true ∧
      ws.all (fun w => w.address ≠ p.1) then ws ++ [observerWallet nowISO p]
  else ws

/-- The import branch of loadBlockchain: build the state from the snapshot
and synthesize an observer wallet for every GSC1 balances entry, clamping the
wallet balance but copying the balances object verbatim.  nowISO stands for
new Date().toISOString(). -/
def loadBlockchainImport (importedData : GSCSnapshot) (nowISO : String) : GSCBlockchain :=
  let pending := match importedData.mempool with
    | some m => m
    | none => importedData.pending_transactions.getD []
  let balances := importedData.balances.getD []
  { chain := importedData.chain.getD []
    pending_transactions := pending
    wallets := balances.filterMap (fun p =>
      if p.1 ≠ "GENESIS" ∧ p.1 ≠ "COINBASE" ∧ strStartsWith p.1 "GSC1" = true then
        some (observerWallet nowISO p)
      else none)
    total_supply := jsOrQ importedData.total_supply 21750000000000
    mempool := some pending
    balances := balances
    difficulty := jsOrN importedData.difficulty 4
    mining_reward := jsOrQ importedData.mining_reward 50 }

/-- refreshBlockchainData with a snapshot present: replace the chain-level
data (balances verbatim), refresh existing wallet balances with a clamp, and
append clamped observer wallets for unknown GSC1 addresses. -/
def refreshBlockchainData (bc : GSCBlockchain) (importedData : GSCSnapshot)
    (nowISO : String) : GSCBlockchain :=
  let newPending := match importedData.mempool with
    | some m => some m
    | none => importedData.pending_transactions
  let balances := importedData.balances.getD bc.balances
  let updatedWallets := bc.wallets.map (fun w =>
    if w.address ≠ "" then
      match getBal balances w.address with
      | some nb => { w with balance := max 0 nb }
      | none => w
    else w)
  let finalWallets := (importedData.balances.getD []).foldl (addObserver nowISO) updatedWallets
  { chain := importedData.chain.getD bc.chain
    pending_transactions := (newPending.getD bc.pending_transactions)
    wallets := finalWallets
    total_supply := jsOrQ importedData.total_supply bc.total_supply
    mempool := match newPending with
      | some m => some m
      | none => bc.mempool
    balances := balances
    difficulty := jsOrN importedData.difficulty bc.difficulty
    mining_reward := jsOrQ importedData.mining_reward bc.mining_reward }

/-- exportBlockchain: the snapshot object serialized for export.  The ||
defaults on difficulty and mining_reward fire when those are zero; the chain,
wallet, pending and balances fields are written as they are. -/
def exportBlockchain (bc : GSCBlockchain) : GSCSnapshot :=
  { chain := some bc.chain
    wallets := some bc.wallets
    pending_transactions := some bc.pending_transactions
    mempool := none
    balances := some bc.balances
    difficulty := some (if bc.difficulty = 0 then 4 else bc.difficulty)
    mining_reward := some (if bc.mining_reward = 0 then 50 else bc.mining_reward)
    total_supply := some bc.total_supply }

/-! ## Boolean views used by the nonnegativity statements -/

def balancesNonneg (bs : List (String × ℚ)) : Bool := bs.all (fun p => decide (0 ≤ p.2))

def walletsNonneg (ws : List GSCWallet) : Bool := ws.all (fun w => decide (0 ≤ w.balance))

def isLowerHexChar (c : Char) : Bool :=
  ('0' ≤ c && c ≤ '9') || ('a' ≤ c && c ≤ 'f')

/-! ## Concrete inputs for witnesses and counterexamples -/

deriving instance DecidableEq for Except

/-- A well-formed address: GSC1 followed by 31 hex characters, length 35. -/
def addrA : String := "GSC1aaaaaaaaaaaaaaaaaaaaaaaaaaaaaaa"

/-- A second well-formed address, distinct from addrA. -/
def addrB : String := "GSC1bbbbbbbbbbbbbbbbbbbbbbbbbbbbbbb"

/-- GSC1 followed by 31 characters that are not hexadecimal digits. -/
def addrZ : String := "GSC1zzzzzzzzzzzzzzzzzzzzzzzzzzzzzzz"

/-- A 64-character lower-case hexadecimal private key. -/
def pkC : String :=
  "a0a1a2a3a4a5a6a7a8a9aaabacadaeafb0b1b2b3b4b5b6b7b8b9babbbcbdbebf"

def emptyTx : GSCTransaction :=
  { sender := "", receiver := "", amount := 0, fee := 0, timestamp := 0,
    signature := "", tx_id := "" }

/-- The transaction createTransaction builds for the C1 run. -/
def txC1 : GSCTransaction :=
  match createTransaction addrA addrB 5 (1 / 10) 1700000000 with
  | Except.ok tx => tx
  | Except.error _ => emptyTx

/-- The transaction createTransaction builds for the C6 zero-fee run. -/
def txC6 : GSCTransaction :=
  match createTransaction addrA addrB 5 0 1700000000 with
  | Except.ok tx => tx
  | Except.error _ => emptyTx

/-- A fresh state with no balances and no wallets. -/
def bcEmpty : GSCBlockchain :=
  { chain := [], pending_transactions := [], wallets := [], total_supply := 0,
    mempool := none, balances := [], difficulty := 4, mining_reward := 50 }

/-- A wallet at addrA whose cached balance is 10, not yet in the ledger. -/
def walletA : GSCWallet :=
  { name := "A", address := addrA, private_key := "", public_key := "",
    balance := 10, created := "", encrypted := false }

/-- A wallet at addrA with zero cached balance, for the C5 boundary run. -/
def walletA0 : GSCWallet :=
  { name := "A", address := addrA, private_key := "", public_key := "",
    balance := 0, created := "", encrypted := false }

/-- Ledger holding exactly amount plus fee for the C5 boundary run. -/
def bcC5 : GSCBlockchain :=
  { bcEmpty with balances := [(addrA, 5 + 1 / 10)] }

/-- Ledger holding one unit less than amount plus fee. -/
def bcC5short : GSCBlockchain :=
  { bcEmpty with balances := [(addrA, 5 + 1 / 10 - 1)] }

/-- A snapshot whose balances object carries a negative entry. -/
def snapNeg : GSCSnapshot :=
  { chain := none, pending_transactions := none, mempool := none, wallets := none,
    total_supply := none, balances := some [(addrA, -5)], difficulty := none,
    mining_reward := none }

/-- A state with one positive balances entry, for the C2 witness. -/
def bcC2 : GSCBlockchain :=
  { bcEmpty with balances := [(addrA, 2)] }

end GSC

namespace GSC

/-! ## SHA-256 sanity: the standard test vectors -/

theorem sha256_vector_abc :
    bytesToHex (sha256Bytes (strBytes "abc")) =
      "ba7816bf8f01cfea414140de5dae2223b00361a396177a9cb410ff61f20015ad" := by decide

theorem sha256_vector_empty :
    bytesToHex (sha256Bytes (strBytes "")) =
      "e3b0c44298fc1c149afbf4c8996fb92427ae41e4649b934ca495991b7852b855" := by decide

/-! ## Digest length facts -/

theorem digestOf_length (st : Sha8) : (digestOf st).length = 32 := by
  simp [digestOf, wordBytes]

theorem sha256Bytes_length (m : List Nat) : (sha256Bytes m).length = 32 :=
  digestOf_length _

theorem bytesToHexChars_length (bs : List Nat) :
    (bytesToHexChars bs).length = 2 * bs.length := by
  induction bs with
  | nil => rfl
  | cons b bs ih => simp [bytesToHexChars, ih]; omega

theorem generateGSCHash_len (s : String) (n : Nat) : jsLen (generateGSCHash s n) = 64 := by
  show (bytesToHexChars (sha256Bytes (strBytes s))).length = 64
  rw [bytesToHexChars_length, sha256Bytes_length]

theorem generateGSCHash_ne_empty (s : String) (n : Nat) : generateGSCHash s n ≠ "" := by
  intro h
  have hl := generateGSCHash_len s n
  rw [h] at hl
  exact absurd hl (by decide)

/-! ## The shape of a built transaction -/

theorem signGSCTransaction_of_ne (tx : GSCTransaction) (h : tx.tx_id ≠ "") :
    signGSCTransaction tx =
      generateGSCHash (tx.tx_id ++ tx.sender ++ jsNumToString tx.timestamp) 16 := by
  rw [signGSCTransaction, if_neg h]

theorem builtTransaction_sender (s r : String) (a f t : ℚ) :
    (builtTransaction s r a f t).sender = s := rfl

theorem builtTransaction_receiver (s r : String) (a f t : ℚ) :
    (builtTransaction s r a f t).receiver = r := rfl

theorem builtTransaction_amount (s r : String) (a f t : ℚ) :
    (builtTransaction s r a f t).amount = a := rfl

theorem builtTransaction_fee (s r : String) (a f t : ℚ) :
    (builtTransaction s r a f t).fee = f := rfl

theorem builtTransaction_timestamp (s r : String) (a f t : ℚ) :
    (builtTransaction s r a f t).timestamp = t := rfl

theorem builtTransaction_tx_id (s r : String) (a f t : ℚ) :
    (builtTransaction s r a f t).tx_id =
      generateGSCHash (s ++ r ++ jsNumToString a ++ jsNumToString f ++ jsNumToString t) 64 :=
  rfl

theorem builtTransaction_tx_id_len (s r : String) (a f t : ℚ) :
    jsLen (builtTransaction s r a f t).tx_id = 64 := by
  rw [builtTransaction_tx_id]
  exact generateGSCHash_len _ 64

theorem builtTransaction_tx_id_ne_empty (s r : String) (a f t : ℚ) :
    (builtTransaction s r a f t).tx_id ≠ "" := by
  rw [builtTransaction_tx_id]
  exact generateGSCHash_ne_empty _ 64

theorem builtTransaction_signature_eq (s r : String) (a f t : ℚ) :
    (builtTransaction s r a f t).signature =
      generateGSCHash ((builtTransaction s r a f t).tx_id ++ s ++ jsNumToString t) 16 := by
  simp only [builtTransaction, signGSCTransaction, calculateGSCTransactionHash]
  rw [if_neg (generateGSCHash_ne_empty _ 64)]

/-! ## createTransaction at the fixed fee sendTransaction uses -/

theorem createTransaction_min_fee (s r : String) (a t : ℚ) :
    createTransaction s r a (1 / 10) t = Except.ok (builtTransaction s r a (1 / 10) t) := by
  simp only [createTransaction]
  rw [if_neg (by norm_num : ¬((1 : ℚ) / 10 = 0))]
  rw [if_neg]
  rintro ⟨-, -, hlt⟩
  exact absurd hlt (by norm_num)

/-- validateGSCTransaction on a freshly built minimum-fee transaction reduces
to the three conditions that are not decided by construction. -/
theorem validate_builtTransaction (s r : String) (a t : ℚ) (ha : 0 < a) :
    validateGSCTransaction (builtTransaction s r a (1 / 10) t) s = true ↔
      (s ≠ r ∧ validateGSCAddress s = true ∧ validateGSCAddress r = true) := by
  rw [validateGSCTransaction, builtTransaction_amount, builtTransaction_fee,
    builtTransaction_sender, builtTransaction_receiver]
  rw [if_neg (not_le.mpr ha), if_neg (by norm_num : ¬((1 : ℚ) / 10 < 0)),
    if_neg (not_or.mpr ⟨builtTransaction_tx_id_ne_empty s r a (1 / 10) t,
      fun hcon => hcon (builtTransaction_tx_id_len s r a (1 / 10) t)⟩)]
  by_cases hsr : s = r
  · simp [hsr]
  · rw [if_neg hsr]
    by_cases hs : validateGSCAddress s = false
    · simp [hs]
    · rw [if_neg hs]
      rw [Bool.not_eq_false] at hs
      by_cases hr : validateGSCAddress r = false
      · simp [hr]
      · rw [if_neg hr]
        rw [Bool.not_eq_false] at hr
        simp [hsr, hs, hr]

/-! ## C1: the transaction signature -/

/-- C1 counterexample: the claim says the signature field equals the first 16
hexadecimal characters of the SHA-256 digest of tx_id, sender and timestamp
and in particular has length 16.  On the concrete transaction built from
addrA to addrB it has length 64 and differs from the 16-character prefix of
that digest. -/
theorem c1_signature_counterexample :
    createTransaction addrA addrB 5 (1 / 10) 1700000000 = Except.ok txC1 ∧
    jsLen txC1.signature ≠ 16 ∧
    txC1.signature ≠
      String.mk ((generateGSCHash (txC1.tx_id ++ addrA ++ jsNumToString (1700000000 : ℚ)) 16).data.take 16) := by
  refine ⟨by decide, by decide, by decide⟩

/-- C1 amended: for every transaction built by createTransaction, the
signature equals the full 64-character SHA-256 hex digest of the
concatenation tx_id, sender, timestamp; generateGSCHash ignores the
requested 16-character truncation, so the signature has length 64. -/
theorem c1_signature_full_hash (s r : String) (a f t : ℚ) (tx : GSCTransaction)
    (h : createTransaction s r a f t = Except.ok tx) :
    tx.signature = generateGSCHash (tx.tx_id ++ s ++ jsNumToString t) 16 ∧
    jsLen tx.signature = 64 := by
  simp only [createTransaction] at h
  generalize hg : (if f = 0 then (1 : ℚ) / 10 else f) = g at h
  split at h
  · exact absurd h (by simp)
  · have htx : tx = builtTransaction s r a g t := by
      injection h with h1
      exact h1.symm
    subst htx
    refine ⟨builtTransaction_signature_eq s r a g t, ?_⟩
    rw [builtTransaction_signature_eq s r a g t]
    exact generateGSCHash_len _ 16

/-- C1 witness: the amended statement evaluated on the concrete run. -/
theorem c1_signature_full_hash_witness :
    txC1.signature = generateGSCHash (txC1.tx_id ++ addrA ++ jsNumToString (1700000000 : ℚ)) 16 ∧
    jsLen txC1.signature = 64 :=
  c1_signature_full_hash addrA addrB 5 (1 / 10) 1700000000 txC1 (by decide)

/-! ## C3: the address validator -/

/-- C3 counterexample to the stated claim (kept for the record of the
divergence): a GSC1-prefixed string of length 35 whose tail contains no
hexadecimal digit at all is accepted, because parseInt returns NaN instead of
throwing and the catch branch is dead. -/
theorem c3_nonhex_accepted_counterexample :
    validateGSCAddress addrZ = true ∧
    jsParseIntHex (String.mk (addrZ.data.drop 4)) = none ∧
    addrZ ≠ "GENESIS" ∧ addrZ ≠ "COINBASE" := by
  refine ⟨by decide, by decide, by decide, by decide⟩

/-- C3 amended: for a string other than the three accepted literals COINBASE,
GENESIS and Genesis, the validator accepts exactly the GSC1-prefixed strings
of length 35 to 36; the hexadecimal requirement on the tail is not enforced. -/
theorem c3_address_validator_characterization (address : String)
    (h1 : address ≠ "COINBASE") (h2 : address ≠ "GENESIS") (h3 : address ≠ "Genesis") :
    validateGSCAddress address = true ↔
      (strStartsWith address "GSC1" = true ∧ 35 ≤ jsLen address ∧ jsLen address ≤ 36) := by
  by_cases he : address = ""
  · subst he
    decide
  · rw [validateGSCAddress, if_neg he, if_neg (not_or.mpr ⟨h1, not_or.mpr ⟨h2, h3⟩⟩)]
    by_cases hp : strStartsWith address "GSC1" = false
    · rw [if_pos hp]
      simp [hp]
    · rw [if_neg hp]
      rw [Bool.not_eq_false] at hp
      by_cases hl : jsLen address < 35 ∨ 36 < jsLen address
      · rw [if_pos hl]
        simp only [Bool.false_eq_true, false_iff]
        rintro ⟨-, ha, hb⟩
        omega
      · rw [if_neg hl]
        constructor
        · intro _
          exact ⟨hp, by omega, by omega⟩
        · intro _
          rfl

/-- C3 witness: the amended characterization evaluated at addrA. -/
theorem c3_address_validator_witness :
    validateGSCAddress addrA = true ↔
      (strStartsWith addrA "GSC1" = true ∧ 35 ≤ jsLen addrA ∧ jsLen addrA ≤ 36) :=
  c3_address_validator_characterization addrA (by decide) (by decide) (by decide)

/-! ## C6: the minimum-fee check -/

/-- C6 counterexample: with fee 0 from a non-system sender, createTransaction
does not fail; the JS default fee || 0.1 replaces the zero fee by the minimum
before the check runs, and a transaction with fee 0.1 is produced. -/
theorem c6_zero_fee_counterexample :
    createTransaction addrA addrB 5 0 1700000000 = Except.ok txC6 ∧
    txC6.fee = 1 / 10 ∧ addrA ≠ "COINBASE" ∧ addrA ≠ "GENESIS" := by
  refine ⟨by decide, by decide, by decide, by decide⟩

/-- C6 amended: for a non-system sender, createTransaction fails with the
minimum-fee error exactly when the fee argument is nonzero and below 0.1; a
zero fee is coerced to the default 0.1 and the build succeeds with that fee. -/
theorem c6_fee_check (s r : String) (a f t : ℚ)
    (hcb : s ≠ "COINBASE") (hgn : s ≠ "GENESIS") :
    (f ≠ 0 ∧ f < 1 / 10 →
      createTransaction s r a f t = Except.error "Minimum transaction fee is 0.1 GSC") ∧
    (f = 0 →
      createTransaction s r a f t = Except.ok (builtTransaction s r a (1 / 10) t) ∧
      (builtTransaction s r a (1 / 10) t).fee = 1 / 10) := by
  constructor
  · rintro ⟨hf0, hlt⟩
    simp only [createTransaction]
    rw [if_neg hf0, if_pos ⟨hcb, hgn, hlt⟩]
  · intro hf0
    subst hf0
    refine ⟨?_, rfl⟩
    simp only [createTransaction, if_pos trivial, if_true]
    rw [if_neg]
    rintro ⟨-, -, hlt⟩
    exact absurd hlt (by norm_num)

/-- C6 witness: a fee of 0.05 from a non-system sender is rejected. -/
theorem c6_fee_check_witness :
    createTransaction addrA addrB 5 (1 / 20) 1700000000 =
      Except.error "Minimum transaction fee is 0.1 GSC" :=
  (c6_fee_check addrA addrB 5 (1 / 20) 1700000000 (by decide) (by decide)).1 (by decide)

/-! ## C7: the twelve-word check -/

/-- C7 counterexample: generateAddressFromMnemonic itself performs no word
count check; on a one-word input it returns full key material, a 64-character
private key with the derived address. -/
theorem c7_mnemonic_engine_counterexample :
    jsLen (generateAddressFromMnemonic ["abandon"]).privateKey = 64 ∧
    (generateAddressFromMnemonic ["abandon"]).address =
      walletAddressFromPrivateKey (generateAddressFromMnemonic ["abandon"]).privateKey ∧
    (["abandon"] : List String).length ≠ 12 := by
  refine ⟨by decide, by decide, by decide⟩

/-- C7 amended: the word-count rejection lives in the wallet-manager import
flow, which splits the pasted phrase on whitespace and errors out before any
derivation when the count is not 12, and otherwise derives from the words. -/
theorem c7_mnemonic_import_rejects (s : String) :
    ((splitWs (jsTrim s)).length ≠ 12 →
      handleImportFromMnemonic s = Except.error "Mnemonic must be exactly 12 words") ∧
    ((splitWs (jsTrim s)).length = 12 →
      handleImportFromMnemonic s = Except.ok (generateAddressFromMnemonic (splitWs (jsTrim s)))) := by
  constructor
  · intro h
    simp [handleImportFromMnemonic, h]
  · intro h
    simp [handleImportFromMnemonic, h]

/-- C7 witness: a two-word phrase is rejected by the import flow. -/
theorem c7_mnemonic_import_rejects_witness :
    handleImportFromMnemonic "hello world" = Except.error "Mnemonic must be exactly 12 words" :=
  (c7_mnemonic_import_rejects "hello world").1 (by decide)

/-! ## C8: export then import into a fresh engine -/

/-- C8: exporting a state and absorbing the exported snapshot through the
loadBlockchain import branch reproduces the balances map verbatim and a
chain of the same length. -/
theorem c8_export_import_roundtrip (bc : GSCBlockchain) (nowISO : String) :
    (loadBlockchainImport (exportBlockchain bc) nowISO).balances = bc.balances ∧
    (loadBlockchainImport (exportBlockchain bc) nowISO).chain.length = bc.chain.length :=
  ⟨rfl, rfl⟩

/-! ## C9: address derivation from a private key -/

/-- C9: for a 64-character lower-case hexadecimal private key, the derived
address is GSC1 followed by the first 32 key characters: its length is 36,
within 35 to 36, it starts with GSC1, the 32-character tail is lower-case
hexadecimal, and derivation is deterministic. -/
theorem c9_derive_address (pk : String) (hlen : jsLen pk = 64)
    (hhex : ∀ c ∈ pk.data, isLowerHexChar c = true) :
    jsLen (walletAddressFromPrivateKey pk) = 36 ∧
    35 ≤ jsLen (walletAddressFromPrivateKey pk) ∧
    jsLen (walletAddressFromPrivateKey pk) ≤ 36 ∧
    strStartsWith (walletAddressFromPrivateKey pk) "GSC1" = true ∧
    ((walletAddressFromPrivateKey pk).data.drop 4).length = 32 ∧
    (∀ c ∈ (walletAddressFromPrivateKey pk).data.drop 4, isLowerHexChar c = true) ∧
    walletAddressFromPrivateKey pk = walletAddressFromPrivateKey pk := by
  have hlen0 : pk.data.length = 64 := hlen
  have hdata : (walletAddressFromPrivateKey pk).data =
      'G' :: 'S' :: 'C' :: '1' :: pk.data.take 32 := rfl
  have htake : (pk.data.take 32).length = 32 := by
    rw [List.length_take, hlen0]
    omega
  refine ⟨?_, ?_, ?_, ?_, ?_, ?_, rfl⟩
  · show (walletAddressFromPrivateKey pk).data.length = 36
    rw [hdata]
    simp [htake]
  · show 35 ≤ (walletAddressFromPrivateKey pk).data.length
    rw [hdata]
    simp [htake]
  · show (walletAddressFromPrivateKey pk).data.length ≤ 36
    rw [hdata]
    simp [htake]
  · rw [strStartsWith, hdata]
    rfl
  · rw [hdata]
    simpa using htake
  · intro c hc
    rw [hdata] at hc
    have hc2 : c ∈ pk.data.take 32 := by simpa using hc
    exact hhex c (List.take_subset 32 pk.data hc2)

/-! ## Association-list lemmas for the balances object -/

theorem getBal_setBal_self (bs : List (String × ℚ)) (a : String) (v : ℚ) :
    getBal (setBal bs a v) a = some v := by
  induction bs with
  | nil => simp [setBal, getBal]
  | cons p ps ih =>
    by_cases hp : p.1 = a
    · simp [setBal, hp, getBal]
    · simp [setBal, hp, getBal, ih]

theorem setBal_nonneg (bs : List (String × ℚ)) (a : String) (v : ℚ)
    (hbs : balancesNonneg bs = true) (hv : 0 ≤ v) :
    balancesNonneg (setBal bs a v) = true := by
  induction bs with
  | nil => simp [setBal, balancesNonneg, hv]
  | cons p ps ih =>
    rw [balancesNonneg, List.all_cons, Bool.and_eq_true] at hbs
    obtain ⟨hp1, hp2⟩ := hbs
    by_cases hp : p.1 = a
    · rw [setBal, if_pos hp, balancesNonneg, List.all_cons, Bool.and_eq_true]
      exact ⟨by simpa using hv, hp2⟩
    · rw [setBal, if_neg hp, balancesNonneg, List.all_cons, Bool.and_eq_true]
      exact ⟨hp1, ih hp2⟩

theorem getWalletBalance_setBal (bc : GSCBlockchain) (addr : String) (v : ℚ) :
    getWalletBalance { bc with balances := setBal bc.balances addr v } addr = v := by
  simp only [getWalletBalance, getBal_setBal_self]

/-! ## Case analysis of sendTransaction -/

theorem effectiveBalance_eq (bc : GSCBlockchain) (w : GSCWallet) :
    (if getWalletBalance bc w.address = 0 ∧ 0 < w.balance then w.balance
     else getWalletBalance bc w.address) = effectiveBalance bc w := rfl

theorem bootState_eq (bc : GSCBlockchain) (w : GSCWallet) :
    (if getWalletBalance bc w.address = 0 ∧ 0 < w.balance then
      { bc with balances := setBal bc.balances w.address w.balance }
     else bc) = bootState bc w := rfl

/-- Every rejection path of sendTransaction reports false and leaves exactly
the state after the bootstrap write. -/
theorem sendTransaction_failure (bc : GSCBlockchain) (w : GSCWallet) (r : String)
    (a t : ℚ)
    (hfail : strStartsWith r "GSC1" = false ∨ a ≤ 0 ∨
      effectiveBalance bc w < a + 1 / 10 ∨
      validateGSCTransaction (builtTransaction w.address r a (1 / 10) t) w.address = false) :
    (sendTransaction bc w r a t).1 = false ∧
    (sendTransaction bc w r a t).2 = bootState bc w := by
  simp only [sendTransaction, sendTransactionCore, createTransaction_min_fee,
    effectiveBalance_eq, bootState_eq]
  by_cases h1 : strStartsWith r "GSC1" = false
  · rw [if_pos h1]
    exact ⟨rfl, rfl⟩
  · rw [if_neg h1]
    by_cases h2 : a ≤ 0
    · rw [if_pos h2]
      exact ⟨rfl, rfl⟩
    · rw [if_neg h2]
      by_cases h3 : effectiveBalance bc w < a + 1 / 10
      · rw [if_pos h3]
        exact ⟨rfl, rfl⟩
      · rw [if_neg h3]
        have h4 : validateGSCTransaction (builtTransaction w.address r a (1 / 10) t)
            w.address = false := by
          rcases hfail with h | h | h | h
          · exact absurd h h1
          · exact absurd h h2
          · exact absurd h h3
          · exact h
        rw [if_pos h4]
        exact ⟨rfl, rfl⟩

/-- When every check passes, sendTransaction reports true. -/
theorem sendTransaction_success (bc : GSCBlockchain) (w : GSCWallet) (r : String)
    (a t : ℚ)
    (hp : strStartsWith r "GSC1" = true) (ha : 0 < a)
    (hbal : a + 1 / 10 ≤ effectiveBalance bc w)
    (hv : validateGSCTransaction (builtTransaction w.address r a (1 / 10) t) w.address = true) :
    (sendTransaction bc w r a t).1 = true := by
  simp only [sendTransaction, sendTransactionCore, createTransaction_min_fee,
    effectiveBalance_eq, bootState_eq]
  rw [if_neg (by rw [hp]; decide), if_neg (not_le.mpr ha), if_neg (not_lt.mpr hbal),
    if_neg (by rw [hv]; decide)]

/-- A send whose checks cannot all be satisfied in the failure form yields
true. -/
theorem sendTransaction_true_of_not_fail (bc : GSCBlockchain) (w : GSCWallet)
    (r : String) (a t : ℚ)
    (hnf : ¬(strStartsWith r "GSC1" = false ∨ a ≤ 0 ∨
      effectiveBalance bc w < a + 1 / 10 ∨
      validateGSCTransaction (builtTransaction w.address r a (1 / 10) t) w.address = false)) :
    (sendTransaction bc w r a t).1 = true := by
  push_neg at hnf
  obtain ⟨h1, h2, h3, h4⟩ := hnf
  refine sendTransaction_success bc w r a t ?_ h2 h3 ?_
  · revert h1
    cases strStartsWith r "GSC1" <;> simp
  · revert h4
    cases validateGSCTransaction (builtTransaction w.address r a (1 / 10) t) w.address <;> simp

/-! ## C4: what a failed send leaves behind -/

/-- C4 counterexample: a send that fails only at validation, after the funds
check passed, leaves the balances map changed: the first-use bootstrap write
has set the sender entry from the wallet object and it survives the failure. -/
theorem c4_failed_send_mutates_counterexample :
    (1 : ℚ) + 1 / 10 ≤ effectiveBalance bcEmpty walletA ∧
    (sendTransaction bcEmpty walletA addrA 1 1700000000).1 = false ∧
    (sendTransaction bcEmpty walletA addrA 1 1700000000).2.balances ≠ bcEmpty.balances := by
  refine ⟨by decide, by decide, by decide⟩

/-- C4 amended: a failed send leaves the balances map unchanged except
possibly for the bootstrap write, which may have set the sender entry to the
wallet object cached balance before any check ran. -/
theorem c4_failed_send_balances (bc : GSCBlockchain) (w : GSCWallet) (r : String)
    (a t : ℚ) (h : (sendTransaction bc w r a t).1 = false) :
    (sendTransaction bc w r a t).2.balances = bc.balances ∨
    (sendTransaction bc w r a t).2.balances = setBal bc.balances w.address w.balance := by
  by_cases hfail : strStartsWith r "GSC1" = false ∨ a ≤ 0 ∨
      effectiveBalance bc w < a + 1 / 10 ∨
      validateGSCTransaction (builtTransaction w.address r a (1 / 10) t) w.address = false
  · rw [(sendTransaction_failure bc w r a t hfail).2, bootState]
    by_cases hb : getWalletBalance bc w.address = 0 ∧ 0 < w.balance
    · right
      rw [if_pos hb]
    · left
      rw [if_neg hb]
  · rw [sendTransaction_true_of_not_fail bc w r a t hfail] at h
    exact absurd h (by simp)

/-- C4 witness: the amended statement on the concrete failing send. -/
theorem c4_failed_send_balances_witness :
    (sendTransaction bcEmpty walletA addrA 1 1700000000).2.balances = bcEmpty.balances ∨
    (sendTransaction bcEmpty walletA addrA 1 1700000000).2.balances =
      setBal bcEmpty.balances walletA.address walletA.balance :=
  c4_failed_send_balances bcEmpty walletA addrA 1 1700000000 (by decide)

/-! ## C5: the funds boundary -/

/-- C5: with fee 0.1 and a well-formed receiver distinct from the sender, a
send succeeds when the ledger balance equals amount plus fee exactly, and
fails when both the ledger balance and the wallet cached balance are below
amount plus fee, reporting false and leaving the sender balance either
unchanged or equal to the cached balance, hence never negative. -/
theorem c5_send_boundary (bc : GSCBlockchain) (w : GSCWallet) (r : String) (a t : ℚ) :
    (validateGSCAddress w.address = true → strStartsWith r "GSC1" = true →
     validateGSCAddress r = true → w.address ≠ r → 0 < a →
     getWalletBalance bc w.address = a + 1 / 10 →
     (sendTransaction bc w r a t).1 = true) ∧
    (0 < a → getWalletBalance bc w.address < a + 1 / 10 → w.balance < a + 1 / 10 →
     (sendTransaction bc w r a t).1 = false ∧
     (getWalletBalance (sendTransaction bc w r a t).2 w.address = getWalletBalance bc w.address ∨
      getWalletBalance (sendTransaction bc w r a t).2 w.address = w.balance) ∧
     (0 ≤ getWalletBalance bc w.address → 0 ≤ w.balance →
      0 ≤ getWalletBalance (sendTransaction bc w r a t).2 w.address)) := by
  constructor
  · intro hs hpfx hr hne ha hbal
    have hnz : ¬(getWalletBalance bc w.address = 0 ∧ 0 < w.balance) := by
      rintro ⟨h0, -⟩
      rw [hbal] at h0
      nlinarith
    have heff : effectiveBalance bc w = a + 1 / 10 := by
      rw [effectiveBalance, if_neg hnz, hbal]
    exact sendTransaction_success bc w r a t hpfx ha (by rw [heff])
      ((validate_builtTransaction w.address r a t ha).mpr ⟨hne, hs, hr⟩)
  · intro ha hlt hw
    have h3 : effectiveBalance bc w < a + 1 / 10 := by
      rw [effectiveBalance]
      split
      · exact hw
      · exact hlt
    have hfail := sendTransaction_failure bc w r a t (Or.inr (Or.inr (Or.inl h3)))
    refine ⟨hfail.1, ?_, ?_⟩
    · rw [hfail.2, bootState]
      by_cases hb : getWalletBalance bc w.address = 0 ∧ 0 < w.balance
      · right
        rw [if_pos hb, getWalletBalance_setBal]
      · left
        rw [if_neg hb]
    · intro hnn1 hnn2
      rw [hfail.2, bootState]
      by_cases hb : getWalletBalance bc w.address = 0 ∧ 0 < w.balance
      · rw [if_pos hb, getWalletBalance_setBal]
        exact hnn2
      · rw [if_neg hb]
        exact hnn1

/-- C5 witness: the exact-balance boundary send succeeds on a concrete run. -/
theorem c5_send_boundary_witness :
    (sendTransaction bcC5 walletA0 addrB 5 1700000000).1 = true :=
  (c5_send_boundary bcC5 walletA0 addrB 5 1700000000).1 (by decide) (by decide)
    (by decide) (by decide) (by decide) (by decide)

/-! ## C10: the result of sendTransaction -/

/-- C10: sendTransaction never propagates a failure; it returns true exactly
when the receiver has the GSC1 prefix, the amount is positive, the reconciled
balance covers amount plus fee, and the built transaction validates (sender
distinct from receiver and both addresses accepted); every other input
reports false through the catch-all handler. -/
theorem c10_send_returns_bool (bc : GSCBlockchain) (w : GSCWallet) (r : String)
    (a t : ℚ) :
    (sendTransaction bc w r a t).1 = true ↔
      (strStartsWith r "GSC1" = true ∧ 0 < a ∧ a + 1 / 10 ≤ effectiveBalance bc w ∧
       w.address ≠ r ∧ validateGSCAddress w.address = true ∧ validateGSCAddress r = true) := by
  constructor
  · intro h
    by_cases hfail : strStartsWith r "GSC1" = false ∨ a ≤ 0 ∨
        effectiveBalance bc w < a + 1 / 10 ∨
        validateGSCTransaction (builtTransaction w.address r a (1 / 10) t) w.address = false
    · rw [(sendTransaction_failure bc w r a t hfail).1] at h
      exact absurd h (by simp)
    · push_neg at hfail
      obtain ⟨h1, h2, h3, h4⟩ := hfail
      have h1' : strStartsWith r "GSC1" = true := by
        revert h1
        cases strStartsWith r "GSC1" <;> simp
      have h4' : validateGSCTransaction (builtTransaction w.address r a (1 / 10) t)
          w.address = true := by
        revert h4
        cases validateGSCTransaction (builtTransaction w.address r a (1 / 10) t) w.address <;>
          simp
      obtain ⟨hne, hs, hr⟩ := (validate_builtTransaction w.address r a t h2).mp h4'
      exact ⟨h1', h2, h3, hne, hs, hr⟩
  · rintro ⟨hp, ha, hbal, hne, hs, hr⟩
    exact sendTransaction_success bc w r a t hp ha hbal
      ((validate_builtTransaction w.address r a t ha).mpr ⟨hne, hs, hr⟩)

/-! ## C2: nonnegativity of balances -/

/-- C2 counterexample: absorbing an imported snapshot copies the balances
object verbatim, so a snapshot carrying a negative entry produces a reachable
state whose balances map contains a negative balance. -/
theorem c2_negative_import_counterexample :
    getBal (loadBlockchainImport snapNeg "t").balances addrA = some (-5) ∧
    balancesNonneg (loadBlockchainImport snapNeg "t").balances = false := by
  refine ⟨by decide, by decide⟩

theorem walletsNonneg_append (ws vs : List GSCWallet) :
    walletsNonneg (ws ++ vs) = (walletsNonneg ws && walletsNonneg vs) := by
  simp [walletsNonneg, List.all_append]

theorem addObserver_nonneg (nowISO : String) (ws : List GSCWallet) (p : String × ℚ)
    (h : walletsNonneg ws = true) :
    walletsNonneg (addObserver nowISO ws p) = true := by
  rw [addObserver]
  split
  · rw [walletsNonneg_append, h]
    simp [walletsNonneg, observerWallet, le_max_left]
  · exact h

theorem foldl_addObserver_nonneg (nowISO : String) (l : List (String × ℚ)) :
    ∀ ws, walletsNonneg ws = true →
      walletsNonneg (l.foldl (addObserver nowISO) ws) = true := by
  induction l with
  | nil => intro ws h; exact h
  | cons p ps ih =>
    intro ws h
    exact ih (addObserver nowISO ws p) (addObserver_nonneg nowISO ws p h)

/-- C2 amended: the writes the engine itself performs are clamped to zero:
updateWalletBalance keeps the balances map nonnegative, the observer wallets
synthesized by the import path carry nonnegative cached balances, and a
refresh merge keeps every wallet cached balance nonnegative; the balances map
absorbed verbatim from a snapshot is the unprotected exception. -/
theorem c2_clamped_writes_nonneg :
    (∀ (bc : GSCBlockchain) (address : String) (v : ℚ),
      balancesNonneg bc.balances = true →
      balancesNonneg (updateWalletBalance bc address v).balances = true) ∧
    (∀ (snap : GSCSnapshot) (nowISO : String),
      walletsNonneg (loadBlockchainImport snap nowISO).wallets = true) ∧
    (∀ (bc : GSCBlockchain) (snap : GSCSnapshot) (nowISO : String),
      walletsNonneg bc.wallets = true →
      walletsNonneg (refreshBlockchainData bc snap nowISO).wallets = true) := by
  refine ⟨?_, ?_, ?_⟩
  · intro bc address v h
    exact setBal_nonneg bc.balances address (max 0 v) h (le_max_left 0 v)
  · intro snap nowISO
    rw [walletsNonneg, List.all_eq_true]
    intro w hw
    simp only [loadBlockchainImport, List.mem_filterMap] at hw
    obtain ⟨p, hp, hf⟩ := hw
    split at hf
    · injection hf with hf1
      subst hf1
      simp [observerWallet, le_max_left]
    · cases hf
  · intro bc snap nowISO h
    simp only [refreshBlockchainData]
    refine foldl_addObserver_nonneg nowISO _ _ ?_
    rw [walletsNonneg, List.all_eq_true]
    intro w hw
    rw [List.mem_map] at hw
    obtain ⟨v, hv, hf⟩ := hw
    have hv0 : (0 : ℚ) ≤ v.balance := by
      have := (List.all_eq_true.mp h) v hv
      simpa using this
    subst hf
    split
    · split
      · simp [le_max_left]
      · simpa using hv0
    · simpa using hv0

/-- C2 witness: a clamped negative write keeps the balances map nonnegative. -/
theorem c2_clamped_writes_nonneg_witness :
    balancesNonneg (updateWalletBalance bcC2 addrA (-5)).balances = true :=
  c2_clamped_writes_nonneg.1 bcC2 addrA (-5) (by decide)

/-- C9 witness: the derivation facts evaluated on a concrete key. -/
theorem c9_derive_address_witness :
    jsLen (walletAddressFromPrivateKey pkC) = 36 ∧
    35 ≤ jsLen (walletAddressFromPrivateKey pkC) ∧
    jsLen (walletAddressFromPrivateKey pkC) ≤ 36 ∧
    strStartsWith (walletAddressFromPrivateKey pkC) "GSC1" = true ∧
    ((walletAddressFromPrivateKey pkC).data.drop 4).length = 32 ∧
    (∀ c ∈ (walletAddressFromPrivateKey pkC).data.drop 4, isLowerHexChar c = true) ∧
    walletAddressFromPrivateKey pkC = walletAddressFromPrivateKey pkC :=
  c9_derive_address pkC (by decide) (by decide)


example : GSC.bytesToHex (GSC.sha256Bytes (GSC.strBytes "abc")) =
    "ba7816bf8f01cfea414140de5dae2223b00361a396177a9cb410ff61f20015ad" := by decide

example : GSC.bytesToHex (GSC.sha256Bytes (GSC.strBytes "")) =
    "e3b0c44298fc1c149afbf4c8996fb92427ae41e4649b934ca495991b7852b855" := by decide
